import Mathlib

/-!
Verification of the gaming-lounge session/billing engine (`src/main.py`,
class `GamingLoungeManager`) against its natural-language specification.

The Python code is shallowly embedded: Python floats are modelled as
rationals (`ℚ`), dictionaries as insertion-ordered association lists,
in-place mutation as explicit state passing, and raised-and-caught
exceptions as explicit error values.  Each definition mirrors one Python
function or data shape; the theorems at the end of the file settle the
specification claims.
-/

namespace GamingLounge

/-- Offer configuration: `self.config["offers"]` in `main.py`
(`enabled`, `2_hour_rate`, `3_hour_rate`). -/
structure Offers where
  enabled : Bool
  rate2h : ℚ
  rate3h : ℚ
  deriving Repr, DecidableEq

/-- Price configuration: `self.config` in `main.py`.  `services` keeps the
Python dict's insertion order as an association list. -/
structure Config where
  playstation_rate : ℚ
  services : List (String × ℚ)
  offers : Offers
  deriving Repr, DecidableEq

/-- The built-in default configuration (lines 27-40 of `main.py`, duplicated
in `reset_settings`). -/
def defaultConfig : Config :=
  { playstation_rate := 6000
    services := [("coffee", 2500), ("matte", 5000), ("tea", 2000), ("shisha", 5000)]
    offers := { enabled := true, rate2h := 5000, rate3h := 4666 } }

/-- `calculate_ps_cost` (`main.py` lines 822-837): tiered station cost with
promotional offers, checked highest tier first. -/
def calculate_ps_cost (cfg : Config) (duration_hours : ℚ) : ℚ :=
  if ¬cfg.offers.enabled then
    duration_hours * cfg.playstation_rate
  else if duration_hours ≥ 3 then
    duration_hours * cfg.offers.rate3h
  else if duration_hours ≥ 2 then
    duration_hours * cfg.offers.rate2h
  else
    duration_hours * cfg.playstation_rate

/-- First-match lookup in an insertion-ordered association list (the shallow
embedding of a Python `dict` access `d[k]` / membership test `k in d`). -/
def lookupKey {α : Type} : List (String × α) → String → Option α
  | [], _ => none
  | (k, v) :: rest, name => if k = name then some v else lookupKey rest name

/-- One attached service charge: the dict
`{"name": ..., "price": ..., "time": ...}` built in `add_service`
(`main.py` lines 466-470).  `price` is the value copied out of
`config["services"]` at add time. -/
structure ServiceEntry where
  name : String
  price : ℚ
  time : String
  deriving Repr, DecidableEq

/-- One station's session state: an entry of `self.sessions`
(`main.py` lines 49-54). -/
structure Session where
  active : Bool
  start_time : Option ℚ
  customer_name : String
  services : List ServiceEntry
  deriving Repr, DecidableEq

/-- The idle state a station is created in and reset to (`close_session`). -/
def idleSession : Session :=
  { active := false, start_time := none, customer_name := "", services := [] }

/-- The warning paths of the session operations (`messagebox.showwarning`
branches): the operation returns without touching state. -/
inductive SessionError
  | alreadyActive
  | notActive
  | unknownService
  deriving Repr, DecidableEq

/-- `sum(service["price"] for service in ...)` (`main.py` lines 542, 810). -/
def service_cost_of (l : List ServiceEntry) : ℚ :=
  (l.map (·.price)).sum

/-- The bill breakdown computed by `end_session` (`main.py` lines 536-543). -/
structure Bill where
  duration : ℚ
  ps_cost : ℚ
  service_cost : ℚ
  total_cost : ℚ
  deriving Repr, DecidableEq

/-- `start_session` (`main.py` lines 504-524): fails when the station is
already in use, otherwise activates it with a fresh start time and empty
charge list.  The user-confirmation dialog is the caller's concern. -/
def start_session (now : ℚ) (sess : Session) : Except SessionError Unit × Session :=
  if sess.active then
    (.error .alreadyActive, sess)
  else
    (.ok (), { active := true, start_time := some now, customer_name := "", services := [] })

/-- `add_service` (`main.py` lines 455-474): fails when the station is idle;
otherwise snapshots the configured price into a new entry appended to the
session's service list.  An unknown service name would raise `KeyError` on
the `config["services"][service]` access, modelled as `unknownService`. -/
def add_service (cfg : Config) (t : String) (name : String) (sess : Session) :
    Except SessionError Unit × Session :=
  if ¬sess.active then
    (.error .notActive, sess)
  else
    match lookupKey cfg.services name with
    | none => (.error .unknownService, sess)
    | some p =>
        (.ok (), { sess with services := sess.services ++ [{ name := name, price := p, time := t }] })

/-- `end_session` (`main.py` lines 526-546): fails when the station is idle;
otherwise computes the elapsed duration, the station cost via
`calculate_ps_cost`, and the services cost, and hands the breakdown to
`show_bill`.  It performs no assignment to `self.sessions`: the session
state is returned unchanged.  (An active session always carries a start
time, an invariant maintained by `start_session`; `getD 0` stands for the
unreachable `None` arithmetic.) -/
def end_session (cfg : Config) (now : ℚ) (sess : Session) :
    Except SessionError Bill × Session :=
  if ¬sess.active then
    (.error .notActive, sess)
  else
    let duration := now - sess.start_time.getD 0
    let hours := duration / 3600
    let ps_cost := calculate_ps_cost cfg hours
    let sc := service_cost_of sess.services
    (.ok { duration := duration, ps_cost := ps_cost, service_cost := sc,
           total_cost := ps_cost + sc }, sess)

/-- `close_session` (`main.py` lines 744-760): resets the station to idle
with an empty charge list. -/
def close_session (_sess : Session) : Session :=
  idleSession

/-- Round half to even, Python's `round` on the exact value (`round(x)`). -/
def roundHalfEven (q : ℚ) : ℤ :=
  if q - ⌊q⌋ < 1/2 then ⌊q⌋
  else if 1/2 < q - ⌊q⌋ then ⌊q⌋ + 1
  else if ⌊q⌋ % 2 = 0 then ⌊q⌋ else ⌊q⌋ + 1

/-- Python's `round(x, 2)`: round to the nearest multiple of 1/100, half to
even. -/
def pyRound2 (q : ℚ) : ℚ :=
  (roundHalfEven (q * 100) : ℚ) / 100

/-- Python's `int()` truncation toward zero. -/
def truncQ (q : ℚ) : ℤ :=
  if q < 0 then -⌊-q⌋ else ⌊q⌋

/-- Zero-padded two-digit rendering, Python's `f"{n:02d}"`. -/
def fmt2 (n : ℕ) : String :=
  if n < 10 then "0" ++ toString n else toString n

/-- The `HH:MM` duration label (`main.py` lines 710-713):
`hours = int(duration // 3600)`, `minutes = int((duration % 3600) // 60)`
for a non-negative duration in seconds. -/
def fmtDuration (seconds : ℚ) : String :=
  let h := (⌊seconds / 3600⌋).toNat
  let m := (⌊(seconds - 3600 * ⌊seconds / 3600⌋) / 60⌋).toNat
  fmt2 h ++ ":" ++ fmt2 m

/-- One row of the Excel ledger, columns of `init_database`
(`main.py` lines 66-69). -/
structure LedgerRecord where
  date : String
  time : String
  playstation : String
  customer : String
  duration_hours : String
  ps_cost : ℚ
  services : String
  service_cost : ℚ
  total_cost : ℚ
  deriving Repr, DecidableEq

/-- One pending service-only order, the dict built in
`add_to_pending_orders` (`main.py` lines 1130-1136). -/
structure PendingOrder where
  customer : String
  services : List ServiceEntry
  total : ℚ
  time_added : String
  deriving Repr, DecidableEq

/-- The `Services` column text for a station bill (`main.py` lines 706-708):
`name($int(price))` entries joined by `", "`, the literal `"None"` when
empty.  (Python's thousands separator in the number is abstracted away.) -/
def services_str_station (l : List ServiceEntry) : String :=
  let s := String.intercalate ", " (l.map fun e => e.name ++ "($" ++ toString (truncQ e.price) ++ ")")
  if s = "" then "None" else s

/-- The `Services` column text for a pending order (`main.py` line 1237):
`name($price)` entries joined by `", "`.  (Python's float rendering of the
price is abstracted to the rational's rendering.) -/
def services_str_pending (l : List ServiceEntry) : String :=
  String.intercalate ", " (l.map fun e => e.name ++ "($" ++ toString e.price ++ ")")

/-- The offer details stored by `show_bill` in `self.current_offer`
(`main.py` lines 574-625): normal cost, tier cost and savings.  (`show_bill`
checks only the duration thresholds, not the offers-enabled flag.) -/
structure OfferChoice where
  normal_cost : ℚ
  offer_cost : ℚ
  savings : ℚ
  deriving Repr, DecidableEq

/-- The computation of `self.current_offer` in `show_bill`. -/
def show_bill_offer (cfg : Config) (hours : ℚ) : OfferChoice :=
  let normal := hours * cfg.playstation_rate
  if hours ≥ 3 then
    { normal_cost := normal, offer_cost := hours * cfg.offers.rate3h,
      savings := normal - hours * cfg.offers.rate3h }
  else if hours ≥ 2 then
    { normal_cost := normal, offer_cost := hours * cfg.offers.rate2h,
      savings := normal - hours * cfg.offers.rate2h }
  else
    { normal_cost := normal, offer_cost := normal, savings := 0 }

/-- The `new_row` dict built by `save_bill_to_database`
(`main.py` lines 716-726) from the chosen station cost and the services
cost. -/
def save_bill_row (date time ps_name : String) (duration ps_cost : ℚ)
    (services : List ServiceEntry) (service_cost : ℚ) : LedgerRecord :=
  { date := date, time := time, playstation := ps_name, customer := "N/A",
    duration_hours := fmtDuration duration,
    ps_cost := pyRound2 ps_cost,
    services := services_str_station services,
    service_cost := pyRound2 service_cost,
    total_cost := pyRound2 (ps_cost + service_cost) }

/-- `save_bill_to_database` (`main.py` lines 685-742): picks the station
cost according to the offer checkbox, builds `new_row` and appends it to
the ledger.  (The confirmation dialog and the Excel write are the caller's
and the store's concern; `total_cost = ps_cost + service_cost` is computed
before rounding.) -/
def save_bill_to_database (ledger : List LedgerRecord) (date time ps_name : String)
    (duration : ℚ) (apply_offer : Bool) (offer : OfferChoice)
    (services : List ServiceEntry) (service_cost : ℚ) : List LedgerRecord :=
  let ps_cost := if apply_offer then offer.offer_cost else offer.normal_cost
  ledger ++ [save_bill_row date time ps_name duration ps_cost services service_cost]

/-- Runtime errors raised (and swallowed by `except` handlers or left to the
toolkit's callback handler) in the pending-order paths. -/
inductive PyError
  | nameError
  | indexError
  deriving Repr, DecidableEq

/-- The `new_row` dict built by `save_pending_to_database`
(`main.py` lines 1240-1250). -/
def pending_row (order : PendingOrder) (date time : String) : LedgerRecord :=
  { date := date, time := time, playstation := "Services Only",
    customer := order.customer,
    duration_hours := "00:00", ps_cost := 0,
    services := services_str_pending order.services,
    service_cost := pyRound2 order.total,
    total_cost := pyRound2 order.total }

/-- `save_pending_to_database` (`main.py` lines 1225-1270).  The function
appends `new_row` to the ledger and writes it out, then executes
`del self.pending_orders[item_index]` (line 1259) — but its parameter is
named `order_index` and no `item_index` is in scope, so that line raises
`NameError`, which the surrounding `except Exception` handler turns into an
error dialog.  The net effect, modelled here, is: the row is appended, the
pending queue is left untouched, and the call reports a failure. -/
def save_pending_to_database (ledger : List LedgerRecord) (pending : List PendingOrder)
    (order : PendingOrder) (date time : String) :
    List LedgerRecord × List PendingOrder × Option PyError :=
  (ledger ++ [pending_row order date time], pending, some .nameError)

/-- The specification's scenario order: customer "Alex" with charges tea
2000 and shisha 5000, total 7000 (as `add_to_pending_orders` computes it:
the sum of the charge prices). -/
def alexOrder : PendingOrder :=
  { customer := "Alex",
    services := [{ name := "tea", price := 2000, time := "18:00:00" },
                 { name := "shisha", price := 5000, time := "18:05:00" }],
    total := 7000, time_added := "17:55:00" }

/-- The queue mutation of `remove_pending_order` (`main.py` lines 1272-1290):
`order = self.pending_orders[item_index]` followed by
`del self.pending_orders[item_index]`.  A non-negative index beyond the list
raises `IndexError` before anything is deleted, leaving the list unchanged
(the exception propagates out of the handler); an in-range index deletes the
element at that position. -/
def remove_pending_order (pending : List PendingOrder) (item_index : ℕ) :
    Option PyError × List PendingOrder :=
  if item_index < pending.length then (none, pending.eraseIdx item_index)
  else (some .indexError, pending)

/-- Assignment `d[k] = v` on a Python dict modelled as an insertion-ordered
association list: replaces the value of an existing key in place, appends a
new key at the end. -/
def dictSet {α : Type} : List (String × α) → String → α → List (String × α)
  | [], k, v => [(k, v)]
  | (k', v') :: rest, k, v =>
      if k' = k then (k', v) :: rest else (k', v') :: dictSet rest k v

/-- The service-price loop of `save_settings` (`main.py` lines 335-337):
walks the settings entries in the dict's insertion order, parsing each
entered price (`none` models a `float()` `ValueError`) and committing it to
the config.  On the first parse failure the loop stops with the config as
mutated so far — exactly what the `except ValueError` handler leaves
behind. -/
def applyServicePrices (cfg : Config) : List (String × Option ℚ) → Bool × Config
  | [] => (true, cfg)
  | (_, none) :: _ => (false, cfg)
  | (name, some p) :: rest =>
      applyServicePrices { cfg with services := dictSet cfg.services name p } rest

/-- `save_settings` (`main.py` lines 322-356).  Each entered text field is
modelled by what `float()` makes of it: `none` when it raises `ValueError`
(non-numeric text), `some v` when it parses — note a negative number parses
fine.  The function mutates `self.config` field by field in source order
(PlayStation rate, then each service price, then the offers flag and the
two offer rates); a `ValueError` aborts the remaining assignments but keeps
every assignment already made.  The returned flag is `true` on the success
path (settings dialog), `false` on the error path; the `json.dump`
persistence and the UI refresh are abstracted. -/
def save_settings (cfg : Config) (ps_rate : Option ℚ) (prices : List (Option ℚ))
    (offers_enabled : Bool) (rate2h rate3h : Option ℚ) : Bool × Config :=
  match ps_rate with
  | none => (false, cfg)
  | some v =>
    let cfg1 := { cfg with playstation_rate := v }
    match applyServicePrices cfg1 ((cfg.services.map Prod.fst).zip prices) with
    | (false, cfg2) => (false, cfg2)
    | (true, cfg2) =>
      let cfg3 := { cfg2 with offers := { cfg2.offers with enabled := offers_enabled } }
      match rate2h with
      | none => (false, cfg3)
      | some v2 =>
        let cfg4 := { cfg3 with offers := { cfg3.offers with rate2h := v2 } }
        match rate3h with
        | none => (false, cfg4)
        | some v3 => (true, { cfg4 with offers := { cfg4.offers with rate3h := v3 } })

/-- A JSON-like value: the shape of `self.config` and of the parsed
`config.json` (`json.load`). -/
inductive JValue where
  | num (q : ℚ)
  | boolean (b : Bool)
  | str (s : String)
  | obj (fields : List (String × JValue))

/-- `dict.update(other)`: assigns `d[k] = v` for each pair of `other` in
order. -/
def dictUpdate {α : Type} : List (String × α) → List (String × α) → List (String × α)
  | d, [] => d
  | d, (k, v) :: rest => dictUpdate (dictSet d k v) rest

/-- The default `self.config` (`main.py` lines 27-40) as the JSON
dictionary it is in Python. -/
def defaultConfigJ : List (String × JValue) :=
  [("playstation_rate", .num 6000),
   ("services", .obj [("coffee", .num 2500), ("matte", .num 5000),
                      ("tea", .num 2000), ("shisha", .num 5000)]),
   ("offers", .obj [("enabled", .boolean true), ("2_hour_rate", .num 5000),
                    ("3_hour_rate", .num 4666)])]

/-- `load_config` (`main.py` lines 443-453):
`self.config.update(loaded_config)` — a single top-level `dict.update` of
the parsed settings file over the current (default) configuration.  (A
`json.load` or file error is caught and leaves the config alone; that path
is not modelled.) -/
def load_config (cfg loaded : List (String × JValue)) : List (String × JValue) :=
  dictUpdate cfg loaded

/-- The configured price of one service as read through the JSON dict:
`config["services"][name]`. -/
def getServicePrice (cfg : List (String × JValue)) (name : String) : Option ℚ :=
  match lookupKey cfg "services" with
  | some (.obj fields) =>
      match lookupKey fields name with
      | some (.num q) => some q
      | _ => none
  | _ => none

end GamingLounge

namespace GamingLounge

theorem roundHalfEven_intCast (m : ℤ) : roundHalfEven (m : ℚ) = m := by
  unfold roundHalfEven
  norm_num

theorem roundHalfEven_of_nonneg_of_lt_half (q : ℚ) (h0 : 0 ≤ q) (h : q < 1/2) :
    roundHalfEven q = 0 := by
  have hf : ⌊q⌋ = 0 := Int.floor_eq_zero_iff.mpr ⟨h0, by linarith⟩
  unfold roundHalfEven
  rw [hf]
  norm_num [h]

theorem roundHalfEven_of_half_lt_of_lt_one (q : ℚ) (h1 : 1/2 < q) (h2 : q < 1) :
    roundHalfEven q = 1 := by
  have hf : ⌊q⌋ = 0 := Int.floor_eq_zero_iff.mpr ⟨by linarith, h2⟩
  unfold roundHalfEven
  rw [hf]
  rw [if_neg (by push_cast; linarith), if_pos (by push_cast; linarith)]
  norm_num

theorem pyRound2_div_100 (m : ℤ) : pyRound2 ((m : ℚ) / 100) = (m : ℚ) / 100 := by
  have h : ((m : ℚ) / 100) * 100 = (m : ℚ) := by field_simp
  unfold pyRound2
  rw [h, roundHalfEven_intCast]

theorem pyRound2_7000 : pyRound2 7000 = 7000 := by
  have h := pyRound2_div_100 700000
  norm_num at h
  exact h

theorem applyServicePrices_fst (cfg : Config) (l : List (String × Option ℚ)) :
    (applyServicePrices cfg l).1 = true ↔ ∀ x ∈ l, x.2.isSome = true := by
  induction l generalizing cfg with
  | nil => simp [applyServicePrices]
  | cons hd tl ih =>
    obtain ⟨name, p⟩ := hd
    cases p with
    | none => simp [applyServicePrices]
    | some v => simp [applyServicePrices, ih]

theorem applyServicePrices_rate (cfg : Config) (l : List (String × Option ℚ)) :
    (applyServicePrices cfg l).2.playstation_rate = cfg.playstation_rate := by
  induction l generalizing cfg with
  | nil => rfl
  | cons hd tl ih =>
    obtain ⟨name, p⟩ := hd
    cases p with
    | none => rfl
    | some v => simp [applyServicePrices, ih]

theorem lookupKey_append {α : Type} (a b : List (String × α)) (k : String) :
    lookupKey (a ++ b) k =
      match lookupKey a k with
      | some v => some v
      | none => lookupKey b k := by
  induction a with
  | nil => simp [lookupKey]
  | cons hd tl ih =>
    obtain ⟨k0, v0⟩ := hd
    by_cases h : k0 = k <;> simp [lookupKey, h, ih]

theorem lookupKey_dictSet {α : Type} (d : List (String × α)) (k k' : String) (v : α) :
    lookupKey (dictSet d k v) k' = if k = k' then some v else lookupKey d k' := by
  induction d with
  | nil => simp [dictSet, lookupKey]
  | cons hd tl ih =>
    obtain ⟨k0, v0⟩ := hd
    by_cases h0 : k0 = k
    · subst h0
      by_cases h1 : k0 = k' <;> simp [dictSet, lookupKey, h1, ih]
    · by_cases h1 : k0 = k'
      · subst h1
        have hk : k ≠ k0 := fun hh => h0 hh.symm
        simp [dictSet, lookupKey, h0, hk, ih]
      · simp [dictSet, lookupKey, h0, h1, ih]

/-- C1: `computeStationCost` returns `durationHours * hourlyRate` when offers
are disabled; with offers enabled it returns `durationHours * tier3Rate` when
`durationHours ≥ 3` (so at the boundary `durationHours = 3` the 3-hour tier
takes precedence over the 2-hour tier), `durationHours * tier2Rate` when
`2 ≤ durationHours < 3`, and `durationHours * hourlyRate` when
`durationHours < 2`; the tiers are mutually exclusive. -/
theorem calculate_ps_cost_tier_spec (cfg : Config) (d : ℚ) :
    (cfg.offers.enabled = false →
      calculate_ps_cost cfg d = d * cfg.playstation_rate) ∧
    (cfg.offers.enabled = true →
      (3 ≤ d → calculate_ps_cost cfg d = d * cfg.offers.rate3h) ∧
      (2 ≤ d → d < 3 → calculate_ps_cost cfg d = d * cfg.offers.rate2h) ∧
      (d < 2 → calculate_ps_cost cfg d = d * cfg.playstation_rate)) := by
  unfold calculate_ps_cost
  refine ⟨fun hoff => ?_, fun hon => ⟨fun h3 => ?_, fun h2 h3 => ?_, fun h2 => ?_⟩⟩ <;>
    split_ifs with h₁ h₂ h₃ <;> first | rfl | linarith | simp_all

/-- Witness for C1: at the default config the three tiers are exercised at
durations 3 (boundary, tier 3 wins), 2.5 (tier 2) and 1 (base rate), and with
offers disabled the base rate applies at duration 3. -/
theorem calculate_ps_cost_tier_spec_witness :
    calculate_ps_cost defaultConfig 3 = 3 * 4666 ∧
    calculate_ps_cost defaultConfig (5/2) = (5/2) * 5000 ∧
    calculate_ps_cost defaultConfig 1 = 1 * 6000 ∧
    calculate_ps_cost { defaultConfig with offers := { defaultConfig.offers with enabled := false } } 3 = 3 * 6000 := by
  refine ⟨?_, ?_, ?_, ?_⟩
  · exact ((calculate_ps_cost_tier_spec defaultConfig 3).2 rfl).1 (by norm_num)
  · exact ((calculate_ps_cost_tier_spec defaultConfig (5/2)).2 rfl).2.1 (by norm_num) (by norm_num)
  · exact ((calculate_ps_cost_tier_spec defaultConfig 1).2 rfl).2.2 (by norm_num)
  · exact (calculate_ps_cost_tier_spec { defaultConfig with offers := { defaultConfig.offers with enabled := false } } 3).1 rfl

/-- C7: on an active station, `end_session` computes a bill breakdown but
does not mutate the station's state: afterwards the station is still active,
its start instant is unchanged and its attached service charges are
unchanged (the whole session state is returned as it was). -/
theorem end_session_does_not_mutate (cfg : Config) (now : ℚ) (sess : Session)
    (h : sess.active = true) :
    (end_session cfg now sess).2 = sess ∧
    (end_session cfg now sess).2.active = true ∧
    (end_session cfg now sess).2.start_time = sess.start_time ∧
    (end_session cfg now sess).2.services = sess.services ∧
    ∃ b, (end_session cfg now sess).1 = .ok b := by
  refine ⟨?_, ?_, ?_, ?_, ?_⟩ <;> simp [end_session, h]

/-- Witness for C7: a concrete active session survives `end_session`
unchanged and a bill is produced. -/
theorem end_session_does_not_mutate_witness :
    (end_session defaultConfig 3600 ⟨true, some 0, "", []⟩).2 = ⟨true, some 0, "", []⟩ ∧
    (end_session defaultConfig 3600 ⟨true, some 0, "", []⟩).2.active = true ∧
    (end_session defaultConfig 3600 ⟨true, some 0, "", []⟩).2.start_time = some 0 ∧
    (end_session defaultConfig 3600 ⟨true, some 0, "", []⟩).2.services = [] ∧
    ∃ b, (end_session defaultConfig 3600 ⟨true, some 0, "", []⟩).1 = .ok b :=
  end_session_does_not_mutate defaultConfig 3600 ⟨true, some 0, "", []⟩ rfl

/-- C8: `start_session` on an already-active station fails with
`alreadyActive` and leaves the station unchanged; `end_session` on an idle
station fails with `notActive`; `add_service` on an idle station fails with
`notActive` and appends no charge. -/
theorem station_misuse_fails (cfg : Config) (now : ℚ) (t name : String) (sess : Session) :
    (sess.active = true → start_session now sess = (.error .alreadyActive, sess)) ∧
    (sess.active = false → end_session cfg now sess = (.error .notActive, sess)) ∧
    (sess.active = false → add_service cfg t name sess = (.error .notActive, sess)) := by
  refine ⟨fun h => ?_, fun h => ?_, fun h => ?_⟩ <;>
    simp [start_session, end_session, add_service, h]

/-- Witness for C8: the three failure paths at concrete sessions. -/
theorem station_misuse_fails_witness :
    start_session 0 ⟨true, some 0, "", []⟩ = (.error .alreadyActive, ⟨true, some 0, "", []⟩) ∧
    end_session defaultConfig 0 idleSession = (.error .notActive, idleSession) ∧
    add_service defaultConfig "12:00:00" "tea" idleSession = (.error .notActive, idleSession) :=
  ⟨(station_misuse_fails defaultConfig 0 "12:00:00" "tea" ⟨true, some 0, "", []⟩).1 rfl,
   (station_misuse_fails defaultConfig 0 "12:00:00" "tea" idleSession).2.1 rfl,
   (station_misuse_fails defaultConfig 0 "12:00:00" "tea" idleSession).2.2 rfl⟩

/-- C9: a service charge's unit price is a snapshot of the configured price
at add time: adding `name` under config `cfg` raises the session's services
cost by exactly `cfg`'s price for `name`, and a later `end_session` under an
arbitrary different config `cfg'` still bills the services at the
snapshotted prices (the services cost reported in the bill does not depend
on `cfg'`). -/
theorem service_price_is_snapshot (cfg cfg' : Config) (now : ℚ) (t name : String) (p : ℚ)
    (sess : Session) (hact : sess.active = true)
    (hp : lookupKey cfg.services name = some p) :
    service_cost_of (add_service cfg t name sess).2.services
      = service_cost_of sess.services + p ∧
    ∀ b, (end_session cfg' now (add_service cfg t name sess).2).1 = .ok b →
      b.service_cost = service_cost_of sess.services + p := by
  have hs : (add_service cfg t name sess).2
      = { sess with services := sess.services ++ [{ name := name, price := p, time := t }] } := by
    simp [add_service, hact, hp]
  have hcost : service_cost_of (add_service cfg t name sess).2.services
      = service_cost_of sess.services + p := by
    simp [hs, service_cost_of]
  refine ⟨hcost, fun b hb => ?_⟩
  rw [hs] at hb
  simp [end_session, hact] at hb
  rw [← hb]
  simp [service_cost_of]

/-- Witness for C9: adding "tea" (price 2000 in the default config) to a
concrete active session, then ending under a config whose tea price was
changed to 9999, still bills the services at 2000. -/
theorem service_price_is_snapshot_witness :
    service_cost_of (add_service defaultConfig "10:00:00" "tea" ⟨true, some 0, "", []⟩).2.services
      = service_cost_of [] + 2000 ∧
    ∀ b, (end_session { defaultConfig with services := [("tea", 9999)] } 3600
            (add_service defaultConfig "10:00:00" "tea" ⟨true, some 0, "", []⟩).2).1 = .ok b →
      b.service_cost = service_cost_of [] + 2000 :=
  service_price_is_snapshot defaultConfig { defaultConfig with services := [("tea", 9999)] }
    3600 "10:00:00" "tea" 2000 ⟨true, some 0, "", []⟩ rfl (by decide)

/-- C5: removing a pending order at an index at or beyond the queue's
current length fails with `indexError` and leaves the queue unchanged (the
same orders in the same positions). -/
theorem remove_pending_order_out_of_range (pending : List PendingOrder) (i : ℕ)
    (h : pending.length ≤ i) :
    remove_pending_order pending i = (some .indexError, pending) := by
  simp only [remove_pending_order, if_neg (Nat.not_lt.mpr h)]

/-- Witness for C5: index 5 against a one-element queue. -/
theorem remove_pending_order_out_of_range_witness :
    remove_pending_order [{ customer := "Bob", services := [], total := 0,
                            time_added := "12:00:00" }] 5
      = (some .indexError,
         [{ customer := "Bob", services := [], total := 0, time_added := "12:00:00" }]) :=
  remove_pending_order_out_of_range
    [{ customer := "Bob", services := [], total := 0, time_added := "12:00:00" }] 5
    (by decide)

/-- C2 (the code diverges from this claim): finalizing the pending order for
"Alex" with charges tea 2000 and shisha 5000 appends a ledger record with
station label "Services Only", duration "00:00", station cost 0 and
services cost = total = 7000 — but the order is NOT removed from the
pending queue: `del self.pending_orders[item_index]` on `main.py` line 1259
raises `NameError` (the parameter is `order_index`), so the queue still
holds the order and the call reports a failure. -/
theorem save_pending_appends_but_keeps_order :
    (save_pending_to_database [] [alexOrder] alexOrder "2026-10-12" "19:00:00").2.1
      = [alexOrder] ∧
    (save_pending_to_database [] [alexOrder] alexOrder "2026-10-12" "19:00:00").2.2
      = some PyError.nameError ∧
    alexOrder.total = service_cost_of alexOrder.services ∧
    (save_pending_to_database [] [alexOrder] alexOrder "2026-10-12" "19:00:00").1
      = [{ date := "2026-10-12", time := "19:00:00", playstation := "Services Only",
           customer := "Alex", duration_hours := "00:00", ps_cost := 0,
           services := services_str_pending alexOrder.services,
           service_cost := 7000, total_cost := 7000 }] := by
  refine ⟨rfl, rfl, by norm_num [alexOrder, service_cost_of], ?_⟩
  simp [save_pending_to_database, pending_row, alexOrder, pyRound2_7000]

/-- C10: a station-session ledger row always carries the literal customer
"N/A", while a pending (services-only) row carries the order's customer
name. -/
theorem station_row_customer_na (date time ps_name : String) (duration ps_cost : ℚ)
    (services : List ServiceEntry) (service_cost : ℚ) (order : PendingOrder) :
    (save_bill_row date time ps_name duration ps_cost services service_cost).customer = "N/A" ∧
    (pending_row order date time).customer = order.customer :=
  ⟨rfl, rfl⟩

/-- C6 counterexample: with exact station cost 1/250 (0.004) and services
cost 1/250, the stored PS_Cost and Service_Cost are both 0 while the stored
Total_Cost is 0.01 — the stored total is the rounding of the exact sum, not
the sum of the stored (rounded) parts, so the claimed identity fails. -/
theorem stored_total_not_sum_of_stored_parts :
    (save_bill_row "2026-10-12" "19:00:00" "PS1" 3600 (1/250) [] (1/250)).ps_cost = 0 ∧
    (save_bill_row "2026-10-12" "19:00:00" "PS1" 3600 (1/250) [] (1/250)).service_cost = 0 ∧
    (save_bill_row "2026-10-12" "19:00:00" "PS1" 3600 (1/250) [] (1/250)).total_cost = 1/100 ∧
    (save_bill_row "2026-10-12" "19:00:00" "PS1" 3600 (1/250) [] (1/250)).total_cost ≠
      (save_bill_row "2026-10-12" "19:00:00" "PS1" 3600 (1/250) [] (1/250)).ps_cost
      + (save_bill_row "2026-10-12" "19:00:00" "PS1" 3600 (1/250) [] (1/250)).service_cost := by
  have e1 : pyRound2 ((1 : ℚ)/250) = 0 := by
    unfold pyRound2
    rw [show ((1:ℚ)/250) * 100 = 2/5 by norm_num,
        roundHalfEven_of_nonneg_of_lt_half (2/5) (by norm_num) (by norm_num)]
    norm_num
  have e2 : pyRound2 ((1:ℚ)/250 + 1/250) = 1/100 := by
    unfold pyRound2
    rw [show ((1:ℚ)/250 + 1/250) * 100 = 4/5 by norm_num,
        roundHalfEven_of_half_lt_of_lt_one (4/5) (by norm_num) (by norm_num)]
    norm_num
  refine ⟨e1, e1, e2, ?_⟩
  show pyRound2 ((1:ℚ)/250 + 1/250) ≠ pyRound2 ((1:ℚ)/250) + pyRound2 ((1:ℚ)/250)
  rw [e1, e2]
  norm_num

/-- C6 amended: the stored Total_Cost is the 2-decimal rounding of the exact
sum `ps_cost + service_cost`; whenever the exact station cost and the exact
services cost are each integer multiples of 0.01 (in particular, whole
currency amounts like the default prices), the stored Total_Cost equals the
stored PS_Cost plus the stored Service_Cost exactly, and so does the record
read back from the append-only ledger. -/
theorem stored_total_eq_sum_for_cent_amounts
    (date time ps_name : String) (duration ps_cost service_cost : ℚ)
    (services : List ServiceEntry) (m n : ℤ)
    (hm : ps_cost = (m : ℚ) / 100) (hn : service_cost = (n : ℚ) / 100) :
    (save_bill_row date time ps_name duration ps_cost services service_cost).total_cost
      = (save_bill_row date time ps_name duration ps_cost services service_cost).ps_cost
        + (save_bill_row date time ps_name duration ps_cost services service_cost).service_cost := by
  subst hm hn
  show pyRound2 ((m:ℚ)/100 + (n:ℚ)/100) = pyRound2 ((m:ℚ)/100) + pyRound2 ((n:ℚ)/100)
  rw [show (m:ℚ)/100 + (n:ℚ)/100 = ((m + n : ℤ) : ℚ)/100 by push_cast; ring,
      pyRound2_div_100, pyRound2_div_100, pyRound2_div_100]
  push_cast
  ring

/-- Witness for C6 (amended): the spec's scenario amounts — station cost
12500, services cost 2500 — give stored Total_Cost 15000 = 12500 + 2500. -/
theorem stored_total_eq_sum_for_cent_amounts_witness :
    (save_bill_row "2026-10-12" "19:00:00" "PS1" 7500 12500 [] 2500).total_cost
      = (save_bill_row "2026-10-12" "19:00:00" "PS1" 7500 12500 [] 2500).ps_cost
        + (save_bill_row "2026-10-12" "19:00:00" "PS1" 7500 12500 [] 2500).service_cost :=
  stored_total_eq_sum_for_cent_amounts "2026-10-12" "19:00:00" "PS1" 7500 12500 2500 []
    1250000 250000 (by norm_num) (by norm_num)

/-- C3 counterexample: `save_settings` neither rejects negative prices nor
leaves the config unchanged on failure.  Entering -5 as the PlayStation
rate (all other fields numeric) succeeds and commits the negative rate; and
with a valid rate 1 but a non-numeric first service price the call fails,
yet the PlayStation rate has already been overwritten with 1. -/
theorem save_settings_accepts_negative_and_mutates_on_failure :
    (save_settings defaultConfig (some (-5)) [some 2500, some 5000, some 2000, some 5000]
        true (some 5000) (some 4666)).1 = true ∧
    (save_settings defaultConfig (some (-5)) [some 2500, some 5000, some 2000, some 5000]
        true (some 5000) (some 4666)).2.playstation_rate = -5 ∧
    (save_settings defaultConfig (some 1) [none, some 5000, some 2000, some 5000]
        true (some 5000) (some 4666)).1 = false ∧
    (save_settings defaultConfig (some 1) [none, some 5000, some 2000, some 5000]
        true (some 5000) (some 4666)).2.playstation_rate = 1 := by
  refine ⟨rfl, ?_, rfl, ?_⟩ <;> rfl

/-- C3 amended: `save_settings` fails exactly when some entered rate fails
to parse as a number — negative values parse and are accepted, there is no
positivity check — and the update is not atomic: whenever the PlayStation
rate parses to `v`, the config's rate is `v` afterwards even if a later
field's parse failure makes the call fail. -/
theorem save_settings_parse_failure_only (cfg : Config) (ps_rate : Option ℚ)
    (prices : List (Option ℚ)) (en : Bool) (r2 r3 : Option ℚ) :
    ((save_settings cfg ps_rate prices en r2 r3).1 = true ↔
      ps_rate.isSome = true
      ∧ (∀ x ∈ (cfg.services.map Prod.fst).zip prices, x.2.isSome = true)
      ∧ r2.isSome = true ∧ r3.isSome = true) ∧
    (∀ v, ps_rate = some v →
      (save_settings cfg ps_rate prices en r2 r3).2.playstation_rate = v) := by
  constructor
  · cases ps_rate with
    | none => simp [save_settings]
    | some v =>
      have hfst := applyServicePrices_fst { cfg with playstation_rate := v }
        ((cfg.services.map Prod.fst).zip prices)
      rcases hAP : applyServicePrices { cfg with playstation_rate := v }
          ((cfg.services.map Prod.fst).zip prices) with ⟨b, cfg2⟩
      rw [hAP] at hfst
      cases b
      · simp only [save_settings, hAP, Option.isSome_some, true_and]
        simp only [Bool.false_eq_true, false_iff, iff_false] at hfst ⊢
        intro hcontra
        exact hfst hcontra.1
      · simp only [save_settings, hAP, Option.isSome_some, true_and]
        simp only [true_iff] at hfst
        cases r2 <;> cases r3 <;> simp
        exact fun a b hab => hfst (a, b) hab
  · intro v hv
    subst hv
    have hrate := applyServicePrices_rate { cfg with playstation_rate := v }
      ((cfg.services.map Prod.fst).zip prices)
    rcases hAP : applyServicePrices { cfg with playstation_rate := v }
        ((cfg.services.map Prod.fst).zip prices) with ⟨b, cfg2⟩
    rw [hAP] at hrate
    simp only [Prod.snd] at hrate
    cases b <;> cases r2 <;> cases r3 <;> simp [save_settings, hAP, hrate]

/-- Witness for C3 (amended): entering rate -5 with every other field
numeric succeeds and the committed rate is -5. -/
theorem save_settings_parse_failure_only_witness :
    (save_settings defaultConfig (some (-5)) [some 2500, some 5000, some 2000, some 5000]
        false (some 10) (some 20)).2.playstation_rate = -5 :=
  (save_settings_parse_failure_only defaultConfig (some (-5))
      [some 2500, some 5000, some 2000, some 5000] false (some 10) (some 20)).2 (-5) rfl

/-- C4 counterexample: the persisted record `{"services": {"tea": 1000}}`
does not merge over the default services — after `load_config` the default
price of "coffee" is gone (the whole `services` object was replaced), and an
unknown top-level field is added to the config rather than ignored. -/
theorem load_config_replaces_services_wholesale :
    getServicePrice defaultConfigJ "coffee" = some 2500 ∧
    getServicePrice (load_config defaultConfigJ
        [("services", .obj [("tea", .num 1000)])]) "coffee" = none ∧
    lookupKey (load_config defaultConfigJ [("unknown_field", .num 1)]) "unknown_field"
      = some (.num 1) :=
  ⟨rfl, rfl, rfl⟩

/-- C4 amended: `load_config` performs a single top-level `dict.update`: any
top-level key present in the persisted record takes its value wholesale from
there (its last occurrence) — so a persisted `services` or `offers` object
missing individual entries silently drops their defaults — unknown top-level
keys are added rather than ignored, and only top-level keys absent from the
persisted record keep their built-in default values. -/
theorem load_config_is_top_level_update (cfg loaded : List (String × JValue)) (k : String) :
    lookupKey (load_config cfg loaded) k =
      match lookupKey loaded.reverse k with
      | some v => some v
      | none => lookupKey cfg k := by
  show lookupKey (dictUpdate cfg loaded) k = _
  induction loaded generalizing cfg with
  | nil => simp [dictUpdate, lookupKey]
  | cons hd tl ih =>
    obtain ⟨k0, v0⟩ := hd
    rw [show dictUpdate cfg ((k0, v0) :: tl) = dictUpdate (dictSet cfg k0 v0) tl from rfl, ih]
    rw [show ((k0, v0) :: tl).reverse = tl.reverse ++ [(k0, v0)] by simp]
    rw [lookupKey_append]
    rcases h : lookupKey tl.reverse k with _ | v
    · simp only [h]
      rw [lookupKey_dictSet]
      by_cases hk : k0 = k <;> simp [lookupKey, hk]
    · simp [h]

end GamingLounge
